import Mathlib

/-!
Formal model of `src/components/AudioProcessor.tsx` (VoxBridge).

The component wires, per participant, a monitoring chain
`sourceNode → analyserNode → processorNode → destination` on a shared
`AudioContext`, keeps the chains in a `Map` keyed by `sessionId`
(`audioProcessorsRef`), computes an RMS loudness on every
`onaudioprocess` callback, and emits a throttled diagnostic event.

Modelling choices (each flagged where used):
* Audio samples are rationals (the source reads IEEE floats; the values
  exercised by the spec, such as `0.5` and `0.01`, and the arithmetic
  `acc + val * val`, `/ length`, `Math.sqrt` are modelled exactly over
  `ℚ`/`ℝ`).
* A `MediaStream` is an opaque id `Nat`; whether
  `createMediaStreamSource`/node construction succeeds for a stream is an
  environment parameter `ctorOk : Nat → Bool` (covers "unsupported
  stream, closed audio context" throws inside the `try`).
* Graph nodes carry one `Bool` each: whether the node's outgoing
  connection made in `processAudioStream` is still in place
  (`disconnect()` clears it).
* `console.log`/`console.error` output is a list of strings `console`;
  the React `debugInfo` state is a list of strings (the
  `toLocaleTimeString` prefix added by `addDebugLog` is presentational
  and omitted).
* `Date.now()` is an integer number of milliseconds (epoch time).
-/

namespace AudioProcessor

/-- State of one monitoring chain: the three graph nodes built in
`processAudioStream` (a flag per node records whether its outgoing
connection is still in place) together with the chain's captured
`lastLogTime` throttle variable. -/
structure ProcessorEntry where
  sourceConnected : Bool
  analyserConnected : Bool
  processorConnected : Bool
  lastLogTime : Int
  deriving DecidableEq

/-- Component state: `ctxOpen` models `audioContextRef.current` being
set; `audioProcessors` is the `Map` from `sessionId` to a chain,
represented as an association list into the arena `chains` of all
chains ever constructed (so that a chain overwritten in the `Map` is
still visible, with its wiring state); `debugInfo` is the React debug
log; `console` records console output. -/
structure AudioState where
  ctxOpen : Bool
  audioProcessors : List (String × Nat)
  chains : List ProcessorEntry
  debugInfo : List String
  console : List String
  deriving DecidableEq

/-- JS `Map.has`. -/
def mapHas (m : List (String × Nat)) (k : String) : Bool :=
  m.any (fun e => e.1 == k)

/-- JS `Map.set`: replaces the value when the key is present, otherwise
appends a new binding. -/
def mapSet (m : List (String × Nat)) (k : String) (v : Nat) : List (String × Nat) :=
  if mapHas m k then m.map (fun e => if e.1 == k then (k, v) else e) else m ++ [(k, v)]

/-- The list-level part of `addDebugLog`:
`[...prev.slice(-20), message]` — keep the last (at most) 20 previous
entries and append the new one. -/
def appendDebugLog (prev : List String) (message : String) : List String :=
  prev.drop (prev.length - 20) ++ [message]

/-- `addDebugLog`: `console.log(message)` then
`setDebugInfo(prev => [...prev.slice(-20), message])`. -/
def addDebugLog (s : AudioState) (message : String) : AudioState :=
  { s with console := s.console ++ [message],
           debugInfo := appendDebugLog s.debugInfo message }

/-- `const LOG_INTERVAL = 500`. -/
def LOG_INTERVAL : Int := 500

/-- The mean of squares computed inside `onaudioprocess`:
`dataArray.reduce((acc, val) => acc + val * val, 0) / dataArray.length`. -/
def rmsSq (dataArray : List ℚ) : ℚ :=
  dataArray.foldl (fun acc val => acc + val * val) 0 / (dataArray.length : ℚ)

/-- The RMS loudness: `Math.sqrt` of `rmsSq`. -/
noncomputable def rms (dataArray : List ℚ) : ℝ :=
  Real.sqrt ((rmsSq dataArray : ℚ) : ℝ)

/-- The running sum `reduce((acc, val) => acc + val * val, acc0)` is
`acc0` plus the sum of squares. -/
theorem foldl_add_sq (l : List ℚ) (a : ℚ) :
    l.foldl (fun acc val => acc + val * val) a = a + (l.map (fun v => v * v)).sum := by
  induction l generalizing a with
  | nil => simp
  | cons x xs ih => simp [ih, List.sum_cons]; ring

/-- The mean of squares is nonnegative. -/
theorem rmsSq_nonneg (l : List ℚ) : 0 ≤ rmsSq l := by
  unfold rmsSq
  apply div_nonneg
  · rw [foldl_add_sq, zero_add]
    exact List.sum_nonneg (by
      intro x hx
      obtain ⟨v, _, rfl⟩ := List.mem_map.1 hx
      exact mul_self_nonneg v)
  · exact_mod_cast Nat.zero_le _

/-- The threshold test `rms > 0.01` of the source is equivalent to the
rational comparison `rmsSq > 1/10000`. -/
theorem rms_gt_centi_iff (l : List ℚ) : rms l > 0.01 ↔ rmsSq l > 1 / 10000 := by
  unfold rms
  rw [gt_iff_lt, Real.lt_sqrt (by norm_num)]
  rw [show ((0.01 : ℝ) ^ 2 = ((1 / 10000 : ℚ) : ℝ)) from by norm_num]
  rw [Rat.cast_lt]

/-- Complement of `rms_gt_centi_iff`. -/
theorem rms_le_centi_iff (l : List ℚ) : rms l ≤ 0.01 ↔ rmsSq l ≤ 1 / 10000 := by
  rw [← not_lt, ← not_lt]
  exact not_congr (rms_gt_centi_iff l)

instance decRmsGtCenti (l : List ℚ) : Decidable (rms l > 0.01) :=
  decidable_of_iff (rmsSq l > 1 / 10000) (rms_gt_centi_iff l).symm

/-- One `processorNode.onaudioprocess` callback invocation for a chain:
reads the current samples `dataArray`, and
`if (rms > 0.01 && now - lastLogTime > LOG_INTERVAL)` emits the
diagnostic event (`console.log({...})`, modelled as the Boolean first
component) and sets `lastLogTime = now`.  Returns (emitted?, new
`lastLogTime`). -/
def onaudioprocess (dataArray : List ℚ) (now lastLogTime : Int) : Bool × Int :=
  if rms dataArray > 0.01 ∧ now - lastLogTime > LOG_INTERVAL then (true, now)
  else (false, lastLogTime)

/-- The spec's loud example buffer has mean square `1/4`. -/
theorem rmsSq_halves : rmsSq [1/2, -1/2, 1/2, -1/2] = 1/4 := by
  norm_num [rmsSq]

/-- The spec's boundary buffer has mean square exactly `1/10000`. -/
theorem rmsSq_centis : rmsSq [1/100, 1/100, 1/100, 1/100] = 1/10000 := by
  norm_num [rmsSq]

/-- Characterisation of the emission test of `onaudioprocess`. -/
theorem onaudioprocess_fst_iff (buf : List ℚ) (now last : Int) :
    (onaudioprocess buf now last).1 = true ↔
      (rms buf > 0.01 ∧ now - last > LOG_INTERVAL) := by
  unfold onaudioprocess
  split <;> simp_all

/-- The throttle variable becomes `now` exactly when an event is emitted. -/
theorem onaudioprocess_snd (buf : List ℚ) (now last : Int) :
    (onaudioprocess buf now last).2 =
      (if (onaudioprocess buf now last).1 = true then now else last) := by
  unfold onaudioprocess
  split <;> simp

/-- A run of `onaudioprocess` invocations on one chain: each element of
`invs` is (samples read from the analyser, value of `Date.now()` at that
invocation); the throttle variable is threaded through, starting from
`last`.  Returns the timestamps of the emitted diagnostic events. -/
def runEmissions : List (List ℚ × Int) → Int → List Int
  | [], _ => []
  | inv :: rest, last =>
    let r := onaudioprocess inv.1 inv.2 last
    if r.1 then inv.2 :: runEmissions rest r.2 else runEmissions rest r.2

/-- The chain as freshly built in `processAudioStream`: all three outgoing
connections (`sourceNode.connect(analyserNode)`,
`analyserNode.connect(processorNode)`,
`processorNode.connect(audioContext.destination)`) in place, and
`let lastLogTime = 0`. -/
def freshEntry : ProcessorEntry :=
  { sourceConnected := true
    analyserConnected := true
    processorConnected := true
    lastLogTime := 0 }

/-- The body of the `try` block in `processAudioStream` up to the graph
wiring: node construction (`createMediaStreamSource`, `createAnalyser`,
`createScriptProcessor`) and the three `connect` calls.  Whether this
throws for a given stream ("unsupported stream, closed audio context")
is decided by the environment `ctorOk`. -/
def buildChain (ctorOk : Nat → Bool) (stream : Nat) : Except String ProcessorEntry :=
  if ctorOk stream then Except.ok freshEntry
  else Except.error "Error processing audio:"

/-- `processAudioStream(stream, sessionId, participantName, isLocal)`:
bails out when `audioContextRef.current` is unset; otherwise tries to
build the chain, and on success stores it in the registry
(`audioProcessorsRef.current.set(sessionId, ...)` — `Map.set`
overwrites) and logs "Set up audio processing for ..."; on a throw the
`catch` block only does `console.error` (its `addDebugLog` call is
commented out in the source), and the state is otherwise unchanged.
The `isLocal` flag only affects the content of emitted diagnostic
events, not the state. -/
def processAudioStream (ctorOk : Nat → Bool) (s : AudioState) (stream : Nat)
    (sessionId participantName : String) (isLocal : Bool) : AudioState :=
  if s.ctxOpen = false then s
  else
    match buildChain ctorOk stream with
    | Except.ok entry =>
      addDebugLog
        { s with chains := s.chains ++ [entry],
                 audioProcessors := mapSet s.audioProcessors sessionId s.chains.length }
        ("Set up audio processing for " ++ participantName)
    | Except.error e => { s with console := s.console ++ [e] }

/-- A remote participant as read from the SDK hooks: `sessionId`,
`name`, optional `audioStream` (an opaque stream id), `isSpeaking`,
`audioLevel`, `publishedTracks`. -/
structure Participant where
  sessionId : String
  name : String
  audioStream : Option Nat
  isSpeaking : Bool
  audioLevel : ℚ
  publishedTracks : List String
  deriving DecidableEq

/-- One iteration of the `remoteParticipants.forEach` body in the
remote-participants `useEffect`: four debug log lines, then — only if
the participant has an `audioStream` and its `sessionId` is not already
in the registry — a further log line and `processAudioStream`. -/
def processRemoteParticipant (ctorOk : Nat → Bool) (s : AudioState)
    (p : Participant) : AudioState :=
  let s1 := addDebugLog s ("Checking participant " ++ p.name ++ ":")
  let s2 := addDebugLog s1 ("- Is Speaking: " ++ toString p.isSpeaking)
  let s3 := addDebugLog s2 ("- Audio Level: " ++ toString p.audioLevel)
  let s4 := addDebugLog s3 ("- Published Tracks: " ++ String.intercalate ", " p.publishedTracks)
  match p.audioStream with
  | some stream =>
    if mapHas s4.audioProcessors p.sessionId then s4
    else
      processAudioStream ctorOk
        (addDebugLog s4 ("Setting up audio processing for " ++ p.name))
        stream p.sessionId p.name false
  | none => addDebugLog s4 ("No audio available for " ++ p.name)

/-- The remote-participants `useEffect`: iterate the full current list. -/
def processRemoteParticipants (ctorOk : Nat → Bool) (s : AudioState)
    (ps : List Participant) : AudioState :=
  ps.foldl (processRemoteParticipant ctorOk) s

/-- `sourceNode.disconnect(); processorNode.disconnect();` — the cleanup
applied to each registry entry; the analyser node is not touched. -/
def disconnectEntry (c : ProcessorEntry) : ProcessorEntry :=
  { c with sourceConnected := false, processorConnected := false }

/-- Apply the per-entry cleanup to every chain in the arena that some
registry binding points to (the `audioProcessorsRef.current.forEach`);
`i` is the arena index of the head of `cs`. -/
def disconnectAll (m : List (String × Nat)) : Nat → List ProcessorEntry → List ProcessorEntry
  | _, [] => []
  | i, c :: cs =>
    (if m.any (fun e => e.2 == i) then disconnectEntry c else c) :: disconnectAll m (i + 1) cs

/-- The `useEffect` cleanup function: `audioContextRef.current?.close()`,
disconnect source and processor of every registered chain, clear the
registry, and log "AudioContext cleaned up". -/
def cleanup (s : AudioState) : AudioState :=
  addDebugLog
    { s with ctxOpen := false,
             chains := disconnectAll s.audioProcessors 0 s.chains,
             audioProcessors := [] }
    "AudioContext cleaned up"

/-- A chain can still receive `onaudioprocess` invocations only while
its `ScriptProcessorNode` is wired into the graph. -/
def canInvoke (s : AudioState) (cid : Nat) : Prop :=
  ∃ c, s.chains.get? cid = some c ∧ c.processorConnected = true

/-- The state right after the mount `useEffect` created the
`AudioContext`, before any chain is attached. -/
def initState : AudioState :=
  { ctxOpen := true
    audioProcessors := []
    chains := []
    debugInfo := []
    console := [] }

/-- A one-step unfolding of `runEmissions`. -/
theorem runEmissions_cons (inv : List ℚ × Int) (rest : List (List ℚ × Int)) (last : Int) :
    runEmissions (inv :: rest) last =
      (if (onaudioprocess inv.1 inv.2 last).1 then
        inv.2 :: runEmissions rest (onaudioprocess inv.1 inv.2 last).2
      else runEmissions rest (onaudioprocess inv.1 inv.2 last).2) := rfl

/-- The first event a run emits comes strictly more than `500` ms after
the initial throttle value. -/
theorem runEmissions_head_gap (invs : List (List ℚ × Int)) (last : Int) :
    ∀ t ∈ (runEmissions invs last).head?, 500 < t - last := by
  induction invs generalizing last with
  | nil => intro t ht; simp [runEmissions] at ht
  | cons inv rest ih =>
    intro t ht
    rw [runEmissions_cons] at ht
    cases hr : (onaudioprocess inv.1 inv.2 last).1 with
    | true =>
      rw [hr] at ht
      simp only [if_true, List.head?_cons, Option.mem_def, Option.some_inj] at ht
      subst ht
      have := ((onaudioprocess_fst_iff inv.1 inv.2 last).mp hr).2
      simpa [LOG_INTERVAL] using this
    | false =>
      rw [hr] at ht
      rw [if_neg (fun h => Bool.noConfusion h)] at ht
      have hsnd : (onaudioprocess inv.1 inv.2 last).2 = last := by
        rw [onaudioprocess_snd, hr]; simp
      rw [hsnd] at ht
      exact ih last t ht

/-- Consecutive emitted events of one chain are strictly more than
`500` ms apart. -/
theorem runEmissions_chain' (invs : List (List ℚ × Int)) (last : Int) :
    List.Chain' (fun a b => b - a > 500) (runEmissions invs last) := by
  induction invs generalizing last with
  | nil => exact List.chain'_nil
  | cons inv rest ih =>
    rw [runEmissions_cons]
    cases hr : (onaudioprocess inv.1 inv.2 last).1 with
    | true =>
      rw [if_pos rfl]
      have hsnd : (onaudioprocess inv.1 inv.2 last).2 = inv.2 := by
        rw [onaudioprocess_snd, hr]; simp
      rw [hsnd]
      exact List.Chain'.cons' (ih inv.2) (fun y hy => runEmissions_head_gap rest inv.2 y hy)
    | false =>
      rw [if_neg (fun h => Bool.noConfusion h)]
      exact ih _

/-- C2: the source emits when `rms > 0.01 && now - lastLogTime > 500`,
a strict comparison: at an elapsed time of exactly 500 ms and an RMS
above the threshold, no event is emitted, refuting the claimed
"at least 500 milliseconds" if-and-only-if condition. -/
theorem throttle_boundary_cex :
    rms [1/2, -1/2, 1/2, -1/2] > 0.01
    ∧ ((500 : Int) - 0 ≥ 500)
    ∧ (onaudioprocess [1/2, -1/2, 1/2, -1/2] 500 0).1 = false := by
  refine ⟨(rms_gt_centi_iff _).mpr (by rw [rmsSq_halves]; norm_num), by decide, ?_⟩
  unfold onaudioprocess
  rw [if_neg (fun hc => absurd hc.2 (by decide))]

/-- C2 (amended): a diagnostic event is emitted iff the RMS exceeds
`0.01` and STRICTLY more than 500 ms have elapsed since the chain's
last emitted event; on emission the throttle state becomes the current
time (otherwise it is unchanged); consequently any two consecutive
emitted events of a chain are more than 500 ms apart. -/
theorem emission_iff_strict_throttle :
    (∀ (buf : List ℚ) (now last : Int),
        ((onaudioprocess buf now last).1 = true ↔
          (rms buf > 0.01 ∧ now - last > LOG_INTERVAL))
        ∧ (onaudioprocess buf now last).2 =
            (if (onaudioprocess buf now last).1 = true then now else last))
    ∧ ∀ (invs : List (List ℚ × Int)) (last : Int),
        List.Chain' (fun a b => b - a > 500) (runEmissions invs last) :=
  ⟨fun buf now last => ⟨onaudioprocess_fst_iff buf now last, onaudioprocess_snd buf now last⟩,
   runEmissions_chain'⟩

/-- C3: a buffer whose RMS is at most `0.01` never triggers an event,
whatever the elapsed time; and the boundary buffer
`[0.01, 0.01, 0.01, 0.01]` has RMS exactly `0.01` (so it is excluded by
the strict comparison). -/
theorem no_emission_of_rms_le_threshold (buf : List ℚ) (now last : Int)
    (h : rms buf ≤ 0.01) :
    (onaudioprocess buf now last).1 = false
    ∧ rms [1/100, 1/100, 1/100, 1/100] = 0.01 := by
  constructor
  · unfold onaudioprocess
    rw [if_neg (fun hc => absurd hc.1 (not_lt.mpr h))]
  · unfold rms
    rw [rmsSq_centis]
    rw [show (((1/10000 : ℚ) : ℝ) = (0.01 : ℝ) ^ 2) from by norm_num]
    exact Real.sqrt_sq (by norm_num)

/-- Witness for `no_emission_of_rms_le_threshold` at the boundary buffer. -/
theorem no_emission_of_rms_le_threshold_witness :
    rms [1/100, 1/100, 1/100, 1/100] ≤ 0.01
    ∧ ((onaudioprocess [1/100, 1/100, 1/100, 1/100] 99999 0).1 = false
       ∧ rms [1/100, 1/100, 1/100, 1/100] = 0.01) :=
  ⟨(rms_le_centi_iff _).mpr (le_of_eq rmsSq_centis),
   no_emission_of_rms_le_threshold _ 99999 0
     ((rms_le_centi_iff _).mpr (le_of_eq rmsSq_centis))⟩

/-- C4: the loudness metric is `sqrt(mean(sample_i^2))` over the full
buffer, and on `[0.5, -0.5, 0.5, -0.5]` it is exactly `0.5`. -/
theorem rms_eq_sqrt_mean_square :
    (∀ buf : List ℚ,
        rms buf = Real.sqrt (((buf.map (fun v => v * v)).sum / (buf.length : ℚ) : ℚ) : ℝ))
    ∧ rms [1/2, -1/2, 1/2, -1/2] = 1/2 := by
  constructor
  · intro buf
    unfold rms rmsSq
    rw [foldl_add_sq, zero_add]
  · unfold rms
    rw [rmsSq_halves]
    rw [show (((1/4 : ℚ) : ℝ) = (1/2 : ℝ) ^ 2) from by norm_num]
    exact Real.sqrt_sq (by norm_num)

/-- C10: a chain stored by `processAudioStream` starts with
`lastLogTime = 0`, so its first above-threshold `onaudioprocess`
invocation emits for any current epoch time beyond the first 500 ms of
1970 — independently of how recently the chain was attached. -/
theorem fresh_chain_first_emission (ctorOk : Nat → Bool) (s : AudioState)
    (stream : Nat) (sid nm : String) (il : Bool) (buf : List ℚ) (now : Int)
    (hctx : s.ctxOpen = true) (hok : ctorOk stream = true)
    (hr : rms buf > 0.01) (hn : now > LOG_INTERVAL) :
    (processAudioStream ctorOk s stream sid nm il).chains.getLast? = some freshEntry
    ∧ freshEntry.lastLogTime = 0
    ∧ (onaudioprocess buf now freshEntry.lastLogTime).1 = true := by
  refine ⟨?_, rfl, ?_⟩
  · unfold processAudioStream buildChain
    simp [hctx, hok, addDebugLog, List.getLast?_concat]
  · show (onaudioprocess buf now 0).1 = true
    exact (onaudioprocess_fst_iff buf now 0).mpr ⟨hr, by rwa [Int.sub_zero]⟩

/-- Witness for `fresh_chain_first_emission`: fresh mount, loud buffer,
epoch time 1000 ms. -/
theorem fresh_chain_first_emission_witness :
    initState.ctxOpen = true
    ∧ (fun _ : Nat => true) 7 = true
    ∧ rms [1/2, -1/2, 1/2, -1/2] > 0.01
    ∧ ((1000 : Int) > LOG_INTERVAL)
    ∧ ((processAudioStream (fun _ => true) initState 7 "sess-1" "Alice" true).chains.getLast?
          = some freshEntry
       ∧ freshEntry.lastLogTime = 0
       ∧ (onaudioprocess [1/2, -1/2, 1/2, -1/2] 1000 freshEntry.lastLogTime).1 = true) :=
  ⟨rfl, rfl, (rms_gt_centi_iff _).mpr (by rw [rmsSq_halves]; norm_num), by decide,
   fresh_chain_first_emission (fun _ => true) initState 7 "sess-1" "Alice" true
     [1/2, -1/2, 1/2, -1/2] 1000 rfl rfl
     ((rms_gt_centi_iff _).mpr (by rw [rmsSq_halves]; norm_num)) (by decide)⟩

/-- Logging does not touch the registry. -/
theorem addDebugLog_audioProcessors (s : AudioState) (m : String) :
    (addDebugLog s m).audioProcessors = s.audioProcessors := rfl

/-- Logging does not touch the chain arena. -/
theorem addDebugLog_chains (s : AudioState) (m : String) :
    (addDebugLog s m).chains = s.chains := rfl

/-- Logging does not touch the audio context. -/
theorem addDebugLog_ctxOpen (s : AudioState) (m : String) :
    (addDebugLog s m).ctxOpen = s.ctxOpen := rfl

/-- `Map.set` on a present key replaces in place, keeping the size. -/
theorem mapSet_length_of_has {m : List (String × Nat)} {k : String}
    (h : mapHas m k = true) (v : Nat) : (mapSet m k v).length = m.length := by
  unfold mapSet
  rw [if_pos h]
  exact List.length_map _ _

/-- `Map.set` on an absent key appends a new binding. -/
theorem mapSet_not_has {m : List (String × Nat)} {k : String}
    (h : mapHas m k = false) (v : Nat) : mapSet m k v = m ++ [(k, v)] := by
  unfold mapSet
  rw [if_neg (by simp [h])]

/-- The `forEach` body on a participant whose `sessionId` is already
registered changes neither the registry nor the chains. -/
theorem processRemoteParticipant_skip (ctorOk : Nat → Bool) (s : AudioState)
    (p : Participant) (st : Nat) (hstream : p.audioStream = some st)
    (hmem : mapHas s.audioProcessors p.sessionId = true) :
    (processRemoteParticipant ctorOk s p).audioProcessors = s.audioProcessors
    ∧ (processRemoteParticipant ctorOk s p).chains = s.chains
    ∧ (processRemoteParticipant ctorOk s p).ctxOpen = s.ctxOpen := by
  refine ⟨?_, ?_, ?_⟩ <;>
    simp [processRemoteParticipant, hstream, addDebugLog_audioProcessors,
      addDebugLog_chains, addDebugLog_ctxOpen, hmem]

/-- The `forEach` body on a fresh participant with a stream attaches one
chain and appends one registry binding. -/
theorem processRemoteParticipant_attach (ctorOk : Nat → Bool) (s : AudioState)
    (p : Participant) (st : Nat) (hstream : p.audioStream = some st)
    (hmem : mapHas s.audioProcessors p.sessionId = false)
    (hctx : s.ctxOpen = true) (hok : ctorOk st = true) :
    (processRemoteParticipant ctorOk s p).audioProcessors
        = s.audioProcessors ++ [(p.sessionId, s.chains.length)]
    ∧ (processRemoteParticipant ctorOk s p).chains = s.chains ++ [freshEntry]
    ∧ (processRemoteParticipant ctorOk s p).ctxOpen = s.ctxOpen := by
  refine ⟨?_, ?_, ?_⟩ <;>
    simp [processRemoteParticipant, hstream, processAudioStream, buildChain,
      addDebugLog_audioProcessors, addDebugLog_chains, addDebugLog_ctxOpen,
      hmem, hctx, hok, mapSet_not_has hmem]

/-- The `forEach` body on a participant without an audio stream only
logs. -/
theorem processRemoteParticipant_noStream (ctorOk : Nat → Bool) (s : AudioState)
    (p : Participant) (hq : p.audioStream = none) :
    (processRemoteParticipant ctorOk s p).audioProcessors = s.audioProcessors
    ∧ (processRemoteParticipant ctorOk s p).chains = s.chains
    ∧ (processRemoteParticipant ctorOk s p).ctxOpen = s.ctxOpen := by
  refine ⟨?_, ?_, ?_⟩ <;>
    simp [processRemoteParticipant, hq, addDebugLog_audioProcessors,
      addDebugLog_chains, addDebugLog_ctxOpen]

/-- C1: `processAudioStream` itself performs no registry check: called
twice with the same `sessionId` it builds a second chain.  `Map.set`
leaves one registry entry, but the arena then holds two fully wired
chains (the first one's nodes are never disconnected), and the second
call visibly changes the state — refuting "the second call does
nothing" and "exactly one set of connected graph nodes". -/
theorem attach_twice_duplicates_wiring :
    (processAudioStream (fun _ => true)
        (processAudioStream (fun _ => true) initState 7 "sess-1" "Alice" false)
        7 "sess-1" "Alice" false).audioProcessors.length = 1
    ∧ (processAudioStream (fun _ => true)
        (processAudioStream (fun _ => true) initState 7 "sess-1" "Alice" false)
        7 "sess-1" "Alice" false).chains.length = 2
    ∧ ((processAudioStream (fun _ => true)
        (processAudioStream (fun _ => true) initState 7 "sess-1" "Alice" false)
        7 "sess-1" "Alice" false).chains.filter
          (fun c => c.sourceConnected && c.analyserConnected && c.processorConnected)).length = 2
    ∧ (processAudioStream (fun _ => true)
        (processAudioStream (fun _ => true) initState 7 "sess-1" "Alice" false)
        7 "sess-1" "Alice" false).chains.length ≠
      (processAudioStream (fun _ => true) initState 7 "sess-1" "Alice" false).chains.length := by
  refine ⟨rfl, rfl, rfl, by decide⟩

/-- C1 (amended): the idempotency guard lives at the call site, not in
`processAudioStream`: the remote-participants effect checks
`audioProcessorsRef.current.has(sessionId)` and leaves registry and
chains unchanged for an already-registered participant, while a direct
second `processAudioStream` call for a registered `sessionId` keeps the
registry size (Map.set overwrites) but wires one more chain with its
own fresh throttle state. -/
theorem attach_idempotent_at_call_site (ctorOk : Nat → Bool) (s : AudioState)
    (p : Participant) (stream : Nat) (sid nm : String) (il : Bool)
    (hstream : p.audioStream = some stream)
    (hmem : mapHas s.audioProcessors p.sessionId = true)
    (hctx : s.ctxOpen = true) (hok : ctorOk stream = true)
    (hkey : mapHas s.audioProcessors sid = true) :
    ((processRemoteParticipant ctorOk s p).audioProcessors = s.audioProcessors
     ∧ (processRemoteParticipant ctorOk s p).chains = s.chains)
    ∧ ((processAudioStream ctorOk s stream sid nm il).audioProcessors.length
         = s.audioProcessors.length
       ∧ (processAudioStream ctorOk s stream sid nm il).chains.length
         = s.chains.length + 1) := by
  obtain ⟨h1, h2, -⟩ := processRemoteParticipant_skip ctorOk s p stream hstream hmem
  refine ⟨⟨h1, h2⟩, ?_, ?_⟩ <;>
    simp [processAudioStream, buildChain, hctx, hok,
      addDebugLog_audioProcessors, addDebugLog_chains, mapSet_length_of_has hkey]

/-- Witness for `attach_idempotent_at_call_site`: a state with one
registered chain, re-notified about the same participant. -/
theorem attach_idempotent_at_call_site_witness :
    (Participant.mk "sess-1" "Alice" (some 7) false 0 []).audioStream = some 7
    ∧ mapHas (AudioState.mk true [("sess-1", 0)] [freshEntry] [] []).audioProcessors
        (Participant.mk "sess-1" "Alice" (some 7) false 0 []).sessionId = true
    ∧ (AudioState.mk true [("sess-1", 0)] [freshEntry] [] []).ctxOpen = true
    ∧ (fun _ : Nat => true) 7 = true
    ∧ mapHas (AudioState.mk true [("sess-1", 0)] [freshEntry] [] []).audioProcessors "sess-1" = true
    ∧ (((processRemoteParticipant (fun _ => true)
            (AudioState.mk true [("sess-1", 0)] [freshEntry] [] [])
            (Participant.mk "sess-1" "Alice" (some 7) false 0 [])).audioProcessors
          = (AudioState.mk true [("sess-1", 0)] [freshEntry] [] []).audioProcessors
        ∧ (processRemoteParticipant (fun _ => true)
            (AudioState.mk true [("sess-1", 0)] [freshEntry] [] [])
            (Participant.mk "sess-1" "Alice" (some 7) false 0 [])).chains
          = (AudioState.mk true [("sess-1", 0)] [freshEntry] [] []).chains)
       ∧ ((processAudioStream (fun _ => true)
            (AudioState.mk true [("sess-1", 0)] [freshEntry] [] [])
            7 "sess-1" "Bob" false).audioProcessors.length
          = (AudioState.mk true [("sess-1", 0)] [freshEntry] [] []).audioProcessors.length
        ∧ (processAudioStream (fun _ => true)
            (AudioState.mk true [("sess-1", 0)] [freshEntry] [] [])
            7 "sess-1" "Bob" false).chains.length
          = (AudioState.mk true [("sess-1", 0)] [freshEntry] [] []).chains.length + 1)) :=
  ⟨rfl, rfl, rfl, rfl, rfl,
   attach_idempotent_at_call_site (fun _ => true)
     (AudioState.mk true [("sess-1", 0)] [freshEntry] [] [])
     (Participant.mk "sess-1" "Alice" (some 7) false 0 []) 7 "sess-1" "Bob" false
     rfl rfl rfl rfl rfl⟩

/-- C5: when chain construction throws, the `catch` swallows the error
(the operation still returns a state instead of propagating the
exception) and neither the registry, the chain arena, nor the debug log
changes, so the participant stays unregistered and a later notification
can retry. -/
theorem attach_error_leaves_registry_unchanged (ctorOk : Nat → Bool) (s : AudioState)
    (stream : Nat) (sid nm : String) (il : Bool)
    (hfail : ctorOk stream = false) :
    buildChain ctorOk stream = Except.error "Error processing audio:"
    ∧ (processAudioStream ctorOk s stream sid nm il).audioProcessors = s.audioProcessors
    ∧ (processAudioStream ctorOk s stream sid nm il).chains = s.chains
    ∧ (processAudioStream ctorOk s stream sid nm il).debugInfo = s.debugInfo := by
  have hb : buildChain ctorOk stream = Except.error "Error processing audio:" := by
    unfold buildChain
    rw [if_neg (by simp [hfail])]
  refine ⟨hb, ?_, ?_, ?_⟩ <;>
  · unfold processAudioStream
    rw [hb]
    cases hco : s.ctxOpen with
    | false => rw [if_pos rfl]
    | true => rw [if_neg (fun h => Bool.noConfusion h)]

/-- Witness for `attach_error_leaves_registry_unchanged` on a fresh
mount with a failing stream. -/
theorem attach_error_leaves_registry_unchanged_witness :
    (fun _ : Nat => false) 7 = false
    ∧ (buildChain (fun _ => false) 7 = Except.error "Error processing audio:"
       ∧ (processAudioStream (fun _ => false) initState 7 "sess-1" "Alice" false).audioProcessors
           = initState.audioProcessors
       ∧ (processAudioStream (fun _ => false) initState 7 "sess-1" "Alice" false).chains
           = initState.chains
       ∧ (processAudioStream (fun _ => false) initState 7 "sess-1" "Alice" false).debugInfo
           = initState.debugInfo) :=
  ⟨rfl, attach_error_leaves_registry_unchanged (fun _ => false) initState 7 "sess-1" "Alice"
     false rfl⟩

/-- C6: on a construction failure the `catch` only calls
`console.error` — the `addDebugLog` line there is commented out in the
source — so the on-screen debug log receives no entry: starting from a
mount with an empty debug log, a failing attach leaves `debugInfo`
empty while the console records the error, refuting "the on-screen
debug log state receives an entry for the error". -/
theorem attach_error_no_debug_entry_cex :
    (processAudioStream (fun _ => false) initState 7 "sess-1" "Alice" false).debugInfo = []
    ∧ (processAudioStream (fun _ => false) initState 7 "sess-1" "Alice" false).console
        = ["Error processing audio:"] :=
  ⟨rfl, rfl⟩

/-- C6 (amended): when chain construction fails, the failure is
reported on the console only; the bounded debug-log overlay state is
unchanged (the overlay logging line in the `catch` block is commented
out), and the registry is untouched. -/
theorem attach_error_console_only (ctorOk : Nat → Bool) (s : AudioState)
    (stream : Nat) (sid nm : String) (il : Bool)
    (hctx : s.ctxOpen = true) (hfail : ctorOk stream = false) :
    (processAudioStream ctorOk s stream sid nm il).debugInfo = s.debugInfo
    ∧ (processAudioStream ctorOk s stream sid nm il).console
        = s.console ++ ["Error processing audio:"]
    ∧ (processAudioStream ctorOk s stream sid nm il).audioProcessors = s.audioProcessors := by
  refine ⟨?_, ?_, ?_⟩ <;>
    simp [processAudioStream, buildChain, hctx, hfail]

/-- Witness for `attach_error_console_only`. -/
theorem attach_error_console_only_witness :
    initState.ctxOpen = true
    ∧ (fun _ : Nat => false) 7 = false
    ∧ ((processAudioStream (fun _ => false) initState 7 "sess-1" "Alice" false).debugInfo
         = initState.debugInfo
       ∧ (processAudioStream (fun _ => false) initState 7 "sess-1" "Alice" false).console
         = initState.console ++ ["Error processing audio:"]
       ∧ (processAudioStream (fun _ => false) initState 7 "sess-1" "Alice" false).audioProcessors
         = initState.audioProcessors) :=
  ⟨rfl, rfl, attach_error_console_only (fun _ => false) initState 7 "sess-1" "Alice" false
     rfl rfl⟩

/-- C7: `[...prev.slice(-20), message]` keeps the last 20 previous
entries AND appends one more, so from a log already holding 20 entries
the update yields 21 — refuting "the resulting list length is at most
20". -/
theorem debug_log_cap_cex :
    (appendDebugLog (List.replicate 20 "x") "m").length = 21
    ∧ ¬ ((appendDebugLog (List.replicate 20 "x") "m").length ≤ 20) := by
  refine ⟨by decide, by decide⟩

/-- C7 (amended): the debug log after an append holds
`min (previous length) 20 + 1` entries — at most 21, not 20 — and is a
suffix of the previous log followed by the new message, so older
entries are dropped first. -/
theorem appendDebugLog_length_spec (prev : List String) (msg : String) :
    (appendDebugLog prev msg).length = min prev.length 20 + 1
    ∧ (appendDebugLog prev msg).length ≤ 21
    ∧ appendDebugLog prev msg <:+ prev ++ [msg] := by
  have h1 : (appendDebugLog prev msg).length = min prev.length 20 + 1 := by
    unfold appendDebugLog
    rw [List.length_append, List.length_drop,
      show ([msg] : List String).length = 1 from rfl]
    rcases Nat.le_total prev.length 20 with h | h
    · rw [min_eq_left h]; omega
    · rw [min_eq_right h]; omega
  refine ⟨h1, by rw [h1]; exact Nat.add_le_add_right (Nat.min_le_right _ _) 1, ?_⟩
  obtain ⟨pfx, hp⟩ := List.drop_suffix (prev.length - 20) prev
  exact ⟨pfx, by unfold appendDebugLog; rw [← List.append_assoc, hp]⟩

/-- Index-wise description of the cleanup pass over the arena. -/
theorem disconnectAll_get? (m : List (String × Nat)) (cs : List ProcessorEntry) :
    ∀ (i n : Nat),
      (disconnectAll m i cs).get? n =
        (cs.get? n).map
          (fun c => if m.any (fun e => e.2 == i + n) then disconnectEntry c else c) := by
  induction cs with
  | nil => intro i n; simp [disconnectAll]
  | cons c cs ih =>
    intro i n
    cases n with
    | zero => simp [disconnectAll]
    | succ k =>
      simp only [disconnectAll, List.get?_cons_succ, ih (i + 1) k]
      rw [show i + 1 + k = i + (k + 1) from by omega]

/-- C8: after the `useEffect` cleanup the registry is empty; each chain
that was registered has its source and processor nodes disconnected —
the analyser node keeps its connection, so only two of the three nodes
are released — and no further `onaudioprocess` invocation can reach a
previously registered chain (its `ScriptProcessorNode` is out of the
graph). -/
theorem cleanup_spec (s : AudioState) (sid : String) (cid : Nat) (c : ProcessorEntry)
    (hmem : (sid, cid) ∈ s.audioProcessors) (hc : s.chains.get? cid = some c) :
    (cleanup s).audioProcessors = []
    ∧ (cleanup s).chains.get? cid = some (disconnectEntry c)
    ∧ (disconnectEntry c).sourceConnected = false
    ∧ (disconnectEntry c).processorConnected = false
    ∧ (disconnectEntry c).analyserConnected = c.analyserConnected
    ∧ ¬ canInvoke (cleanup s) cid := by
  have hany : s.audioProcessors.any (fun e => e.2 == 0 + cid) = true :=
    List.any_eq_true.mpr ⟨(sid, cid), hmem, by simp⟩
  have hchains : (cleanup s).chains.get? cid = some (disconnectEntry c) := by
    show (disconnectAll s.audioProcessors 0 s.chains).get? cid = _
    rw [disconnectAll_get?, hc, hany]
    rfl
  refine ⟨rfl, hchains, rfl, rfl, rfl, ?_⟩
  rintro ⟨c', hc', hp⟩
  rw [hchains] at hc'
  cases hc'
  exact Bool.noConfusion hp

/-- Witness for `cleanup_spec`: one attached chain gets torn down. -/
theorem cleanup_spec_witness :
    ("sess-1", 0) ∈ (AudioState.mk true [("sess-1", 0)] [freshEntry] [] []).audioProcessors
    ∧ (AudioState.mk true [("sess-1", 0)] [freshEntry] [] []).chains.get? 0 = some freshEntry
    ∧ ((cleanup (AudioState.mk true [("sess-1", 0)] [freshEntry] [] [])).audioProcessors = []
       ∧ (cleanup (AudioState.mk true [("sess-1", 0)] [freshEntry] [] [])).chains.get? 0
           = some (disconnectEntry freshEntry)
       ∧ (disconnectEntry freshEntry).sourceConnected = false
       ∧ (disconnectEntry freshEntry).processorConnected = false
       ∧ (disconnectEntry freshEntry).analyserConnected = freshEntry.analyserConnected
       ∧ ¬ canInvoke (cleanup (AudioState.mk true [("sess-1", 0)] [freshEntry] [] [])) 0) :=
  ⟨List.Mem.head _, rfl,
   cleanup_spec (AudioState.mk true [("sess-1", 0)] [freshEntry] [] []) "sess-1" 0 freshEntry
     (List.Mem.head _) rfl⟩

/-- C9: a remote-list notification iterates the full list; with one
already-attached participant and one new participant (both with audio
streams) exactly one chain is added and exactly one registry binding —
the new participant's — is appended; and a participant without an
audio stream is skipped with no state change beyond logging. -/
theorem remote_rescan_spec (ctorOk : Nat → Bool) (s : AudioState)
    (pA pB q : Participant) (stA stB : Nat)
    (hA : pA.audioStream = some stA)
    (hB : pB.audioStream = some stB)
    (hmemA : mapHas s.audioProcessors pA.sessionId = true)
    (hmemB : mapHas s.audioProcessors pB.sessionId = false)
    (hctx : s.ctxOpen = true) (hok : ctorOk stB = true)
    (hq : q.audioStream = none) :
    (processRemoteParticipants ctorOk s [pA, pB]).chains.length = s.chains.length + 1
    ∧ (processRemoteParticipants ctorOk s [pA, pB]).audioProcessors
        = s.audioProcessors ++ [(pB.sessionId, s.chains.length)]
    ∧ (processRemoteParticipant ctorOk s q).audioProcessors = s.audioProcessors
    ∧ (processRemoteParticipant ctorOk s q).chains = s.chains := by
  obtain ⟨ha1, ha2, ha3⟩ := processRemoteParticipant_skip ctorOk s pA stA hA hmemA
  have hfold : processRemoteParticipants ctorOk s [pA, pB]
      = processRemoteParticipant ctorOk (processRemoteParticipant ctorOk s pA) pB := rfl
  obtain ⟨hb1, hb2, -⟩ :=
    processRemoteParticipant_attach ctorOk (processRemoteParticipant ctorOk s pA) pB stB hB
      (by rw [ha1]; exact hmemB) (by rw [ha3]; exact hctx) hok
  obtain ⟨hq1, hq2, -⟩ := processRemoteParticipant_noStream ctorOk s q hq
  refine ⟨?_, ?_, hq1, hq2⟩
  · rw [hfold, hb2, ha2]
    simp
  · rw [hfold, hb1, ha1, ha2]

/-- Witness for `remote_rescan_spec`: Alice already attached, Bob new,
Carol without a stream. -/
theorem remote_rescan_spec_witness :
    (Participant.mk "sess-1" "Alice" (some 7) false 0 []).audioStream = some 7
    ∧ (Participant.mk "sess-2" "Bob" (some 8) false 0 []).audioStream = some 8
    ∧ mapHas (AudioState.mk true [("sess-1", 0)] [freshEntry] [] []).audioProcessors
        (Participant.mk "sess-1" "Alice" (some 7) false 0 []).sessionId = true
    ∧ mapHas (AudioState.mk true [("sess-1", 0)] [freshEntry] [] []).audioProcessors
        (Participant.mk "sess-2" "Bob" (some 8) false 0 []).sessionId = false
    ∧ (AudioState.mk true [("sess-1", 0)] [freshEntry] [] []).ctxOpen = true
    ∧ (fun _ : Nat => true) 8 = true
    ∧ (Participant.mk "sess-3" "Carol" none false 0 []).audioStream = none
    ∧ ((processRemoteParticipants (fun _ => true)
          (AudioState.mk true [("sess-1", 0)] [freshEntry] [] [])
          [Participant.mk "sess-1" "Alice" (some 7) false 0 [],
           Participant.mk "sess-2" "Bob" (some 8) false 0 []]).chains.length
         = (AudioState.mk true [("sess-1", 0)] [freshEntry] [] []).chains.length + 1
       ∧ (processRemoteParticipants (fun _ => true)
          (AudioState.mk true [("sess-1", 0)] [freshEntry] [] [])
          [Participant.mk "sess-1" "Alice" (some 7) false 0 [],
           Participant.mk "sess-2" "Bob" (some 8) false 0 []]).audioProcessors
         = (AudioState.mk true [("sess-1", 0)] [freshEntry] [] []).audioProcessors
             ++ [((Participant.mk "sess-2" "Bob" (some 8) false 0 []).sessionId,
                  (AudioState.mk true [("sess-1", 0)] [freshEntry] [] []).chains.length)]
       ∧ (processRemoteParticipant (fun _ => true)
          (AudioState.mk true [("sess-1", 0)] [freshEntry] [] [])
          (Participant.mk "sess-3" "Carol" none false 0 [])).audioProcessors
         = (AudioState.mk true [("sess-1", 0)] [freshEntry] [] []).audioProcessors
       ∧ (processRemoteParticipant (fun _ => true)
          (AudioState.mk true [("sess-1", 0)] [freshEntry] [] [])
          (Participant.mk "sess-3" "Carol" none false 0 [])).chains
         = (AudioState.mk true [("sess-1", 0)] [freshEntry] [] []).chains) :=
  ⟨rfl, rfl, rfl, rfl, rfl, rfl, rfl,
   remote_rescan_spec (fun _ => true) (AudioState.mk true [("sess-1", 0)] [freshEntry] [] [])
     (Participant.mk "sess-1" "Alice" (some 7) false 0 [])
     (Participant.mk "sess-2" "Bob" (some 8) false 0 [])
     (Participant.mk "sess-3" "Carol" none false 0 []) 7 8
     rfl rfl rfl rfl rfl rfl rfl⟩

end AudioProcessor
